/-
Shallow embedding of the gnews-scrapper news-scraping pipeline
(src/api/scrape.js and the unnamed source variants): URL parsing and
percent-decoding as used by extractActualUrl, the Google News redirect
resolvers, the retrying fetch wrappers, and the content/image extractors,
together with proofs and refutations of the specification claims.

Strings are modelled at the ASCII level (the character list underlying a
Lean String stands for the JavaScript string); multi-byte UTF-8 percent
sequences are out of scope of every claim and are rejected by the strict
decoder.
-/
import Mathlib

namespace GNews

/-! ## Basic string machinery (character-list level) -/

def charToLower (c : Char) : Char :=
  if 'A' ≤ c ∧ c ≤ 'Z' then Char.ofNat (c.toNat + 32) else c

def lowerStr (s : String) : String := String.mk (s.data.map charToLower)

def isWs (c : Char) : Bool := c == ' ' || c == '\t' || c == '\n' || c == '\r'

/-- JavaScript `String.prototype.trim` (ASCII whitespace). -/
def trimList (l : List Char) : List Char :=
  ((l.dropWhile isWs).reverse.dropWhile isWs).reverse

def jsTrim (s : String) : String := String.mk (trimList s.data)

/-- JavaScript `.replace(/\s+/g, ' ')`, as a one-flag state machine (the
flag records whether the previous character was whitespace). -/
def collapseWsGo : Bool → List Char → List Char
  | _, [] => []
  | prevWs, c :: rest =>
    if isWs c then
      if prevWs then collapseWsGo true rest
      else ' ' :: collapseWsGo true rest
    else c :: collapseWsGo false rest

def collapseWsL (l : List Char) : List Char := collapseWsGo false l

/-- JavaScript `String.prototype.includes` (substring test). -/
def listHasSub (pat : List Char) : List Char → Bool
  | [] => pat.isEmpty
  | c :: rest => pat.isPrefixOf (c :: rest) || listHasSub pat rest

def containsSubstr (s pat : String) : Bool := listHasSub pat.data s.data

/-- Split at the first occurrence of `c`: part before, and (if found) part after. -/
def splitAtFirstChar (c : Char) : List Char → List Char × Option (List Char)
  | [] => ([], none)
  | x :: rest =>
    if x = c then ([], some rest)
    else
      let r := splitAtFirstChar c rest
      (x :: r.1, r.2)

/-- JavaScript `String.prototype.split` on a single character. -/
def splitOnCharL (c : Char) : List Char → List (List Char)
  | [] => [[]]
  | x :: rest =>
    if x = c then [] :: splitOnCharL c rest
    else
      match splitOnCharL c rest with
      | [] => [[x]]
      | h :: t => (x :: h) :: t

/-- Split at the first character belonging to `delims`. -/
def splitAtFirstMem (delims : List Char) : List Char → List Char × List Char
  | [] => ([], [])
  | x :: rest =>
    if delims.contains x then ([], x :: rest)
    else
      let r := splitAtFirstMem delims rest
      (x :: r.1, r.2)

/-! ## Percent decoding -/

def hexVal (c : Char) : Option Nat :=
  if '0' ≤ c ∧ c ≤ '9' then some (c.toNat - 48)
  else if 'a' ≤ c ∧ c ≤ 'f' then some (c.toNat - 87)
  else if 'A' ≤ c ∧ c ≤ 'F' then some (c.toNat - 55)
  else none

/-- Model of `decodeURIComponent`: `none` models a thrown `URIError` (malformed or
non-ASCII sequence; every claim input is ASCII). -/
def decodeStrictL : List Char → Option (List Char)
  | [] => some []
  | c :: rest =>
    if c = '%' then
      match rest with
      | h :: lo :: rest2 =>
        match hexVal h, hexVal lo with
        | some a, some b =>
          if 16 * a + b < 128 then
            (decodeStrictL rest2).map (fun l => Char.ofNat (16 * a + b) :: l)
          else none
        | _, _ => none
      | _ => none
    else (decodeStrictL rest).map (fun l => c :: l)

/-- The lenient decoding performed by `URLSearchParams` on parameter names
and values: `+` becomes a space, valid `%XX` pairs are decoded, malformed
percent signs are kept literally. -/
def decodeLenientGo : Nat → List Char → List Char
  | 0, _ => []
  | _, [] => []
  | fuel + 1, c :: rest =>
    if c = '%' then
      match rest with
      | h :: lo :: rest2 =>
        match hexVal h, hexVal lo with
        | some a, some b => Char.ofNat (16 * a + b) :: decodeLenientGo fuel rest2
        | _, _ => '%' :: decodeLenientGo fuel rest
      | _ => '%' :: decodeLenientGo fuel rest
    else (if c = '+' then ' ' else c) :: decodeLenientGo fuel rest

def decodeLenientL (l : List Char) : List Char := decodeLenientGo l.length l

def decodeURIComponentJs (s : String) : Option String :=
  (decodeStrictL s.data).map String.mk

def searchDecodeValue (s : String) : String := String.mk (decodeLenientL s.data)

/-! ## URL model (`new URL`, `searchParams`) -/

structure UrlParts where
  scheme : String
  host : String
  pathname : String
  query : String
deriving DecidableEq

def hostDelims : List Char := ['/', '?', '#']

def validHostL (l : List Char) : Bool := !l.isEmpty && l.all (fun c => !(c == ' '))

/-- Parse an absolute `http`/`https` URL into scheme, host, pathname and raw
query string; `none` models a thrown `TypeError` (e.g. a forbidden character
in the host, as for `new URL`). -/
def parseUrlL (l : List Char) : Option UrlParts :=
  let stripped : Option (String × List Char) :=
    if "https://".data.isPrefixOf l then some ("https:", l.drop 8)
    else if "http://".data.isPrefixOf l then some ("http:", l.drop 7)
    else none
  match stripped with
  | none => none
  | some (sch, rest) =>
    let hp := splitAtFirstMem hostDelims rest
    if validHostL hp.1 then
      let beforeHash := (splitAtFirstChar '#' hp.2).1
      let pq := splitAtFirstChar '?' beforeHash
      some { scheme := sch, host := String.mk hp.1,
             pathname := if pq.1.isEmpty then "/" else String.mk pq.1,
             query := String.mk (pq.2.getD []) }
    else none

def parseUrl (s : String) : Option UrlParts := parseUrlL s.data

/-- The `URLSearchParams` view of a raw query string. -/
def searchPairs (q : String) : List (String × String) :=
  (splitOnCharL '&' q.data).map (fun piece =>
    match splitAtFirstChar '=' piece with
    | (k, none) => (String.mk (decodeLenientL k), "")
    | (k, some v) => (String.mk (decodeLenientL k), String.mk (decodeLenientL v)))

/-- Model of `URLSearchParams.get`: first matching parameter, decoded, else null. -/
def searchGet (q name : String) : Option String :=
  ((searchPairs q).find? (fun p => p.1 == name)).map (fun p => p.2)

/-- JavaScript `a || b` on nullable strings (empty string is falsy). -/
def jsOrStr : Option String → Option String → Option String
  | some s, b => if s = "" then b else some s
  | none, b => b

def truthyStr : Option String → Bool
  | some s => s != ""
  | none => false

/-- Model of `new URL(input, base).href`.  Scope of the model: absolute `http(s)`
inputs resolve to themselves when well formed and throw (`none`) otherwise;
other inputs resolve against the base origin. -/
def newURL (input base : String) : Option String :=
  if "http://".data.isPrefixOf input.data || "https://".data.isPrefixOf input.data then
    match parseUrl input with
    | some _ => some input
    | none => none
  else
    match parseUrl base with
    | some b =>
      if "/".data.isPrefixOf input.data then some (b.scheme ++ "//" ++ b.host ++ input)
      else some (b.scheme ++ "//" ++ b.host ++ "/" ++ input)
    | none => none

/-- Function `isValidUrl` from every variant: `new URL` succeeds and the protocol is
http or https. -/
def isValidUrl (s : String) : Bool := (parseUrl s).isSome

/-- Function `extractActualUrl` (src/api/scrape.js line 244, src/unnamed/part_001
line 45): keep Google News article URLs, decode a `url=` or `q=` parameter
(one lenient decode by `searchParams.get`, then `decodeURIComponent`), else
return the input unchanged.  A thrown decode error is caught and the input
returned. -/
def extractActualUrl (googleUrl : String) : String :=
  match parseUrl googleUrl with
  | none => googleUrl
  | some u =>
    if containsSubstr u.pathname "/articles/" then googleUrl
    else
      match jsOrStr (searchGet u.query "url") (searchGet u.query "q") with
      | some v =>
        if v = "" then googleUrl
        else
          match decodeURIComponentJs v with
          | some d => d
          | none => googleUrl
      | none => googleUrl

/-- Resolution stage of `scrapeGoogleNews` (src/unnamed/part_001 line 244):
the only step applied to a URL that does not remain a Google News article
link is the pure `extractActualUrl` — no network call is involved. -/
def scrapeGoogleNewsResolveP1A (url : String) : Except String String :=
  let actualUrl := extractActualUrl url
  if containsSubstr actualUrl "news.google.com/articles/" then
    .error "Direct Google News article URLs are not accessible. Please use the RSS feed option or provide the original article URL."
  else .ok actualUrl

/-! ## Regex fragments used by the resolvers -/

/-- Stop set of `/https?:\/\/[^\s<>"\x7b\x7d|\\^`[\]]+/` (decodeGoogleNewsUrl). -/
def urlStopChars : List Char :=
  [' ', '\t', '\n', '\r', Char.ofNat 60, Char.ofNat 62, Char.ofNat 34,
   Char.ofNat 123, Char.ofNat 125, Char.ofNat 124, Char.ofNat 92,
   Char.ofNat 94, Char.ofNat 96, Char.ofNat 91, Char.ofNat 93]

/-- Stop set of the script-scan regex `/https?:\/\/[^"'\s]+/`. -/
def scriptStopChars : List Char :=
  [Char.ofNat 34, Char.ofNat 39, ' ', '\t', '\n', '\r']

/-- One match attempt of `https?://[^stops]+` anchored at the head. -/
def matchUrlAtWith (stops : List Char) (l : List Char) : Option (List Char) :=
  let tryScheme : List Char → Option (List Char) := fun sch =>
    if sch.isPrefixOf l then
      let body := (l.drop sch.length).takeWhile (fun c => !(stops.contains c))
      if body.isEmpty then none else some (sch ++ body)
    else none
  match tryScheme "https://".data with
  | some m => some m
  | none => tryScheme "http://".data

/-- All matches of the global regex, leftmost first, continuing after each
match (fuel-indexed scan over the suffixes). -/
def findAllUrlsGo (stops : List Char) : Nat → List Char → List (List Char)
  | 0, _ => []
  | _, [] => []
  | fuel + 1, c :: rest =>
    match matchUrlAtWith stops (c :: rest) with
    | some m => m :: findAllUrlsGo stops fuel ((c :: rest).drop m.length)
    | none => findAllUrlsGo stops fuel rest

def findAllUrls (stops : List Char) (s : String) : List String :=
  (findAllUrlsGo stops s.data.length s.data).map String.mk

def findFirstUrl (stops : List Char) (s : String) : Option String :=
  (findAllUrls stops s).head?

/-- Part of the string after the first occurrence of `pat`, if any
(as in `s.split(pat)[1]`, combined with `upToSub` below). -/
def afterSub (pat : List Char) : List Char → Option (List Char)
  | [] => if pat.isEmpty then some [] else none
  | c :: rest =>
    if pat.isPrefixOf (c :: rest) then some ((c :: rest).drop pat.length)
    else afterSub pat rest

/-- Prefix of the string up to (excluding) the first occurrence of `pat`. -/
def upToSub (pat : List Char) : List Char → List Char
  | [] => []
  | c :: rest =>
    if pat.isPrefixOf (c :: rest) then []
    else c :: upToSub pat rest

/-- Case-insensitive variant of `afterSub` (for the `/url=(.+)/i` match). -/
def afterSubCI (pat : List Char) : List Char → Option (List Char)
  | [] => if pat.isEmpty then some [] else none
  | c :: rest =>
    if (pat.map charToLower).isPrefixOf ((c :: rest).map charToLower) then
      some ((c :: rest).drop pat.length)
    else afterSubCI pat rest

/-- Group 1 of `content.match(/url=(.+)/i)`: text after the first
case-insensitive `url=` up to the end of the line, nonempty. -/
def metaUrlMatch (content : String) : Option String :=
  match afterSubCI "url=".data content.data with
  | some r =>
    let captured := r.takeWhile (fun c => !(c == '\n') && !(c == '\r'))
    if captured.isEmpty then none else some (String.mk captured)
  | none => none

/-- Group 1 of `content.match(/url=(.*)$/i)` (part_000 variant: the group
may be empty, which is then discarded by the truthiness check). -/
def metaUrlMatchP0 (content : String) : Option String :=
  match afterSubCI "url=".data content.data with
  | some r => some (String.mk (r.takeWhile (fun c => !(c == '\n') && !(c == '\r'))))
  | none => none

/-! ## decodeGoogleNewsUrl (src/api/scrape.js line 266) -/

def decodeGoogleNewsUrl (encodedUrl : String) : String :=
  if containsSubstr encodedUrl "news.google.com/rss/articles/" then
    match afterSub "/articles/".data encodedUrl.data with
    | some afterL =>
      let urlParts := upToSub "/articles/".data afterL
      if urlParts.isEmpty then encodedUrl
      else
        let encodedPart := (splitAtFirstChar '?' urlParts).1
        match decodeStrictL encodedPart with
        | some decoded =>
          match findAllUrlsGo urlStopChars decoded.length decoded with
          | m :: _ => String.mk m
          | [] => encodedUrl
        | none => encodedUrl
    | none => encodedUrl
  else encodedUrl

/-! ## Fetch outcomes and thrown errors -/

structure RespInfo where
  status : Nat
  location : Option String
deriving DecidableEq

/-- A thrown JavaScript error as observed by the catch blocks: the optional
axios `response` and the message. -/
structure JsErr where
  response : Option RespInfo
  message : String
deriving DecidableEq

/-- What the resolver reads out of a parsed HTML response body. -/
structure ResolverDoc where
  metaRefreshContent : Option String
  canonicalHref : Option String
  scriptText : String
deriving DecidableEq

/-- Outcome of the single axios call made by a resolver: a response with
status, `Location` header and (for string bodies) the parsed document, or a
thrown error. -/
inductive FetchRes where
  | ok (status : Nat) (location : Option String) (body : Option ResolverDoc)
  | fail (response : Option RespInfo) (message : String)
deriving DecidableEq

/-! ## resolveGoogleNewsUrl (src/api/scrape.js line 302) -/

/-- Script-scan step: first absolute URL in the inline script text passing
the keyword filter. -/
def resolveV2Scripts (googleUrl : String) (d : ResolverDoc) : Except JsErr String :=
  match (findAllUrls scriptStopChars d.scriptText).find? (fun u =>
      !containsSubstr u "google.com" && !containsSubstr u "gstatic.com" &&
      (containsSubstr u "news" || containsSubstr u "article" || containsSubstr u ".com")) with
  | some u => .ok u
  | none => .ok googleUrl

/-- HTML-body steps of the resolver: meta refresh, canonical link, scripts. -/
def resolveV2Body (googleUrl : String) (body : Option ResolverDoc) : Except JsErr String :=
  match body with
  | none => .ok googleUrl
  | some d =>
    let metaHit : Option String :=
      match d.metaRefreshContent with
      | some content =>
        match metaUrlMatch content with
        | some u => if containsSubstr u "news.google.com" then none else some u
        | none => none
      | none => none
    match metaHit with
    | some u => .ok u
    | none =>
      match d.canonicalHref with
      | some href =>
        if href != "" && !containsSubstr href "news.google.com" then .ok href
        else resolveV2Scripts googleUrl d
      | none => resolveV2Scripts googleUrl d

/-- Function `resolveGoogleNewsUrl` of src/api/scrape.js: decode attempt, then one
fetch whose outcome is inspected for a redirect location, meta refresh,
canonical link or script URL; every error is caught and the original URL
(or the error response location) is returned. `.error` would model an
uncaught throw; the resolver never produces one. -/
def resolveGoogleNewsUrlV2 (googleUrl : String) (f : FetchRes) : Except JsErr String :=
  let decodedUrl := decodeGoogleNewsUrl googleUrl
  if decodedUrl != googleUrl && !containsSubstr decodedUrl "news.google.com" then
    .ok decodedUrl
  else
    match f with
    | .fail resp _ =>
      match resp with
      | some r =>
        match r.location with
        | some loc =>
          if !containsSubstr loc "news.google.com" then .ok loc else .ok googleUrl
        | none => .ok googleUrl
      | none => .ok googleUrl
    | .ok _ loc body =>
      match loc with
      | some l =>
        if l != "" && !containsSubstr l "news.google.com" then .ok l
        else resolveV2Body googleUrl body
      | none => resolveV2Body googleUrl body

/-! ## resolveGoogleNewsUrl (src/unnamed/part_000 line 37) -/

/-- What the part_000 resolver reads from a response body: meta refresh
content and the captured group of the `window.location` script regex. -/
structure P0Doc where
  metaRefreshContent : Option String
  scriptRedirect : Option String
deriving DecidableEq

inductive FetchResP0 where
  | ok (status : Nat) (location : Option String) (doc : P0Doc)
  | fail (response : Option RespInfo) (message : String)
deriving DecidableEq

/-- Expression `new URL(input, base).href` as a computation that can throw. -/
def newURLex (input base : String) : Except JsErr String :=
  match newURL input base with
  | some h => .ok h
  | none => .error { response := none, message := "Invalid URL" }

/-- The part_000 catch block: follow an error-response `Location` header via
`new URL` (which itself can throw, uncaught), else return the input. -/
def catchP0 (googleUrl : String) (resp : Option RespInfo) : Except JsErr String :=
  match resp with
  | some r =>
    match r.location with
    | some loc => if loc = "" then .ok googleUrl else newURLex loc googleUrl
    | none => .ok googleUrl
  | none => .ok googleUrl

/-- Try-block body of the part_000 resolver. -/
def p0TryBody (googleUrl : String) (f : FetchResP0) : Except JsErr String :=
  match f with
  | .fail resp msg => .error { response := resp, message := msg }
  | .ok status loc doc =>
    if 300 ≤ status ∧ status < 400 ∧ truthyStr loc then
      newURLex (loc.getD "") googleUrl
    else
      let metaHit : Option String :=
        match doc.metaRefreshContent with
        | some content =>
          match metaUrlMatchP0 content with
          | some u => if u = "" then none else some u
          | none => none
        | none => none
      match metaHit with
      | some u => newURLex u googleUrl
      | none =>
        match doc.scriptRedirect with
        | some u => newURLex u googleUrl
        | none => .ok googleUrl

/-- Function `resolveGoogleNewsUrl` of src/unnamed/part_000: the try body is guarded
by a catch whose own `new URL(location, googleUrl)` call is *not* guarded —
an error there propagates to the caller. -/
def resolveGoogleNewsUrlP0 (googleUrl : String) (f : FetchResP0) : Except JsErr String :=
  match p0TryBody googleUrl f with
  | .ok s => .ok s
  | .error e => catchP0 googleUrl e.response

/-! ## Retry loop shared by the scraping wrappers -/

structure RunResult (α : Type) where
  result : Except JsErr α
  attempts : Nat
  delays : List Nat

/-- One `for (attempt = a; …)` execution: `fuel` attempts remain, a delay is
inserted before an attempt when `delayFor` says so, a failing step retries
unless `noRetry` breaks out. -/
def retryGo {α : Type} (delayFor : Nat → Option Nat) (noRetry : JsErr → Bool)
    (step : Nat → Except JsErr α) :
    Nat → Nat → Nat → List Nat → Option JsErr → RunResult α
  | 0, _, attempts, delays, lastErr =>
    { result := .error (lastErr.getD { response := none, message := "" }),
      attempts := attempts, delays := delays }
  | fuel + 1, a, attempts, delays, _ =>
    let delays2 := delays ++ (delayFor a).toList
    match step a with
    | .ok v => { result := .ok v, attempts := attempts + 1, delays := delays2 }
    | .error e =>
      if noRetry e then { result := .error e, attempts := attempts + 1, delays := delays2 }
      else retryGo delayFor noRetry step fuel (a + 1) (attempts + 1) delays2 (some e)

/-- Full retry loop from attempt 1, wrapping the finally-thrown error. -/
def runRetries {α : Type} (maxRetries : Nat) (delayFor : Nat → Option Nat)
    (noRetry : JsErr → Bool) (wrap : JsErr → JsErr)
    (step : Nat → Except JsErr α) : RunResult α :=
  let r := retryGo delayFor noRetry step maxRetries 1 0 [] none
  { r with result := match r.result with
      | .ok v => .ok v
      | .error e => .error (wrap e) }

/-! ## Image extraction -/

/-- An `img` node as queried by cheerio: the attributes the extractors read. -/
structure ImgTag where
  src : Option String := none
  dataSrc : Option String := none
deriving DecidableEq

/-- The `img` node shape used by the scrape.js `scrapeOriginalArticle` extractor. -/
structure ImgTag2 where
  src : Option String := none
  dataSrc : Option String := none
  dataLazySrc : Option String := none
  alt : String := ""
deriving DecidableEq

/-- Loop body of the first-variant `scrapeArticle` image loop
(src/api/scrape.js line 108): cap 5, no duplicate check. -/
def v1ImgStep (pageUrl : String) (acc : List String) (t : ImgTag) : List String :=
  match jsOrStr t.src t.dataSrc with
  | some s =>
    if s != "" && s.length > 20 && !containsSubstr s "logo" &&
       !containsSubstr s "icon" && acc.length < 5 then
      match newURL s pageUrl with
      | some full => acc ++ [full]
      | none => acc
    else acc
  | none => acc

def v1Images (imgs : List ImgTag) (pageUrl : String) : List String :=
  imgs.foldl (v1ImgStep pageUrl) []

/-- Loop body of the scrape.js `scrapeOriginalArticle` image loop
(line 682): blacklist filter, dedup via `includes`, cap 10. -/
def v2ImgStep (pageUrl : String) (acc : List String) (t : ImgTag2) : List String :=
  match jsOrStr (jsOrStr t.src t.dataSrc) t.dataLazySrc with
  | some s =>
    if s != "" && !containsSubstr s "logo" && !containsSubstr s "icon" &&
       !containsSubstr s "avatar" && !containsSubstr s "placeholder" &&
       !containsSubstr (lowerStr t.alt) "logo" && s.length > 20 then
      match newURL s pageUrl with
      | some full =>
        if !acc.contains full && acc.length < 10 then acc ++ [full] else acc
      | none => acc
    else acc
  | none => acc

/-- scrape.js `scrapeOriginalArticle` image extraction: each selector of the
ordered list contributes its matched `img` nodes in document order. -/
def v2Images (sel : List (List ImgTag2)) (pageUrl : String) : List String :=
  sel.foldl (fun acc imgs => imgs.foldl (v2ImgStep pageUrl) acc) []

/-- Loop body of `extractImages` (src/unnamed/part_001 line 418): dedup via
`includes` but no cap and no minimum length. -/
def p1ImgStep (baseUrl : String) (acc : List String) (t : ImgTag) : List String :=
  match jsOrStr t.src t.dataSrc with
  | some s =>
    if s != "" && !containsSubstr s "logo" && !containsSubstr s "icon" &&
       !containsSubstr s "placeholder" then
      match newURL s baseUrl with
      | some full => if acc.contains full then acc else acc ++ [full]
      | none => acc
    else acc
  | none => acc

def p1ExtractImages (sel : List (List ImgTag)) (baseUrl : String) : List String :=
  sel.foldl (fun acc imgs => imgs.foldl (p1ImgStep baseUrl) acc) []

/-! ## Title cascade and timestamp parsing -/

/-- The JavaScript title-selector loop: the variable keeps the last
assigned candidate, breaking as soon as one is truthy and longer than 10. -/
def jsCascadeGo : Option String → List (Option String) → Option String
  | cur, [] => cur
  | _, c :: rest =>
    match c with
    | some t => if t.length > 10 then some t else jsCascadeGo (some t) rest
    | none => jsCascadeGo none rest

def jsCascade (cands : List (Option String)) : Option String := jsCascadeGo none cands

/-- Cleanup `.replace(/\s*\|\s*.*$/, '').trim()` applied to the `title` tag text. -/
def cleanTitleTag (s : String) : String :=
  match splitAtFirstChar '|' s.data with
  | (_, none) => jsTrim s
  | (pre, some _) => String.mk (trimList pre)

/-- Fragment of JavaScript `new Date(s)` / `toISOString`: only ISO instants
`YYYY-MM-DDTHH:MM:SSZ` are accepted (no claim depends on other formats);
`none` models an invalid date. -/
def jsDateToIso (s : String) : Option String :=
  match s.data with
  | [y1, y2, y3, y4, '-', m1, m2, '-', d1, d2, 'T',
     h1, h2, ':', n1, n2, ':', s1, s2, 'Z'] =>
    if [y1, y2, y3, y4, m1, m2, d1, d2, h1, h2, n1, n2, s1, s2].all
        (fun c => '0' ≤ c && c ≤ '9') then
      some (String.mk [y1, y2, y3, y4, '-', m1, m2, '-', d1, d2, 'T',
                       h1, h2, ':', n1, n2, ':', s1, s2] ++ ".000Z")
    else none
  | _ => none

/-- Date-selector loop: first truthy candidate that parses to a valid date
wins; invalid candidates are skipped. -/
def tsCascade : List (Option String) → Option String
  | [] => none
  | c :: rest =>
    match c with
    | some d =>
      if d != "" then
        match jsDateToIso d with
        | some iso => some iso
        | none => tsCascade rest
      else tsCascade rest
    | none => tsCascade rest

/-! ## Paragraph collection shared by the v1/v2 extractors -/

/-- Keep a paragraph whose trimmed text exceeds `minLen` and matches no
banned keyword (lower-cased `includes`). -/
def keepPara (minLen : Nat) (banned : List String) (t : String) : Option String :=
  let txt := jsTrim t
  if txt.length > minLen && banned.all (fun b => !containsSubstr (lowerStr txt) b) then
    some txt
  else none

/-- Content-selector loop: paragraphs of each matched container accumulate
(filtered at 30 chars, excluding advertisements) until the accumulated text
exceeds 200 characters; the Bool records whether the loop broke. -/
def contentLoop : String → List (Option (List String)) → String × Bool
  | content, [] => (content, false)
  | content, cOpt :: rest =>
    match cOpt with
    | none => contentLoop content rest
    | some paras =>
      if paras.isEmpty then contentLoop content rest
      else
        let content2 := paras.foldl (fun acc t =>
          match keepPara 30 ["advertisement"] t with
          | some txt => acc ++ txt ++ "\n\n"
          | none => acc) content
        if content2.length > 200 then (content2, true) else contentLoop content2 rest

/-- Page-wide fallback over all `p` nodes at a 50-character threshold. -/
def fallbackParas (banned : List String) (allParas : List String) (content : String) : String :=
  allParas.foldl (fun acc t =>
    match keepPara 50 banned t with
    | some txt => acc ++ txt ++ "\n\n"
    | none => acc) content

/-- JavaScript `content.split(/\s+/).length` / `content.split(' ').length`. -/
def splitWsCount (s : String) : Nat := (splitOnCharL ' ' (collapseWsL s.data)).length

def splitSpaceCount (s : String) : Nat := (splitOnCharL ' ' s.data).length

/-! ## scrapeOriginalArticle extraction (src/api/scrape.js line 568) -/

/-- The selector-query results that the scrape.js `scrapeOriginalArticle`
extraction reads from one fetched page. -/
structure PageV2 where
  h1Headline : String := ""
  h1Title : String := ""
  h1Story : String := ""
  ogTitle : Option String := none
  h1 : String := ""
  titleTag : String := ""
  containers : List (Option (List String)) := []
  allParas : List String := []
  imgSel : List (List ImgTag2) := []
  timeCands : List (Option String) := []
deriving DecidableEq

structure ArticleV2 where
  title : Option String := none
  content : Option String := none
  images : Option (List String) := none
  timestamp : Option String := none
  source_url : String := ""
  word_count : Nat := 0
deriving DecidableEq

def v2TitleCands (p : PageV2) : List (Option String) :=
  [some (jsTrim p.h1Headline), some (jsTrim p.h1Title), some (jsTrim p.h1Story),
   p.ogTitle, some (jsTrim p.h1), some (cleanTitleTag p.titleTag)]

def v2Content (p : PageV2) : String :=
  let r := contentLoop "" p.containers
  if r.2 then r.1
  else fallbackParas ["advertisement", "subscribe"] p.allParas r.1

/-- Post-fetch extraction of the scrape.js `scrapeOriginalArticle`: throws
(`.error`) when neither a truthy title nor 100 characters of content were
obtained. -/
def extractV2 (url : String) (p : PageV2) : Except JsErr ArticleV2 :=
  let title := jsCascade (v2TitleCands p)
  let content := v2Content p
  if !truthyStr title && content.length < 100 then
    .error { response := none,
             message := "Insufficient content extracted - possible blocking or paywall" }
  else
    let images := v2Images p.imgSel url
    .ok { title := match title with
            | some t => if t = "" then none else some t
            | none => none,
          content := if jsTrim content = "" then none else some (jsTrim content),
          images := if images.isEmpty then none else some images,
          timestamp := tsCascade p.timeCands,
          source_url := url,
          word_count := splitSpaceCount content }

/-- Function `scrapeOriginalArticle` with its retry loop: 2 attempts, a fixed 2000 ms
pause before the retry, no non-retriable classification, final rethrow of
the last error. -/
def scrapeOriginalArticleV2Run (url : String) (oracle : Nat → Except JsErr PageV2) :
    RunResult ArticleV2 :=
  runRetries 2 (fun a => if 1 < a then some 2000 else none) (fun _ => false)
    (fun e => e) (fun a => (oracle a).bind (extractV2 url))

/-! ## part_001 second-variant scrapeArticle (src/unnamed/part_001 line 635) -/

/-- Function `extractCleanText`: the first selector with at least one matched element
wins, its joined text trimmed and whitespace-collapsed; no length threshold.
`none` candidates stand for selectors matching no element. -/
def extractCleanTextM (cands : List (Option String)) : String :=
  match cands.find? (fun c => c.isSome) with
  | some (some t) => String.mk (collapseWsL (trimList t.data))
  | _ => ""

def indianLocations : List String :=
  ["Mumbai", "Delhi", "Bangalore", "Hyderabad", "Chennai", "Kolkata", "Pune",
   "Ahmedabad", "Jaipur", "Lucknow", "Kanpur", "Nagpur", "Indore", "Bhopal",
   "Visakhapatnam", "Patna", "Maharashtra", "Karnataka", "Andhra Pradesh",
   "Tamil Nadu", "Gujarat", "Rajasthan", "West Bengal", "Madhya Pradesh",
   "Uttar Pradesh", "Odisha", "Kerala", "Punjab", "Haryana"]

/-- Function `extractLocation`: dateline elements first, else a gazetteer scan of the
body text. -/
def extractLocationM (locCands : List String) (content : String) : Option String :=
  match (locCands.map jsTrim).find? (fun t => t != "") with
  | some t => some t
  | none =>
    indianLocations.find? (fun loc =>
      containsSubstr (lowerStr content) (lowerStr loc))

def possibleCategories : List String :=
  ["sports", "politics", "business", "technology", "entertainment", "health",
   "education", "world"]

def charToUpper (c : Char) : Char :=
  if 'a' ≤ c ∧ c ≤ 'z' then Char.ofNat (c.toNat - 32) else c

def capitalizeFirst (s : String) : String :=
  match s.data with
  | [] => s
  | c :: rest => String.mk (charToUpper c :: rest)

/-- Function `extractCategory`: second-to-last breadcrumb, else a taxonomy-matching
URL path segment, else the section meta tag. -/
def extractCategoryM (breadcrumbs : List String) (url : String)
    (metaSection : Option String) : Option String :=
  let bc := breadcrumbs.map jsTrim
  if bc.length > 1 then some (bc.getD (bc.length - 2) "")
  else
    let fromPath : Option String :=
      match parseUrl url with
      | some u =>
        ((splitOnCharL '/' u.pathname.data).map String.mk
            |>.filter (fun seg => seg.length > 0)
            |>.find? (fun seg => possibleCategories.contains (lowerStr seg))).map
          capitalizeFirst
      | none => none
    match fromPath with
    | some c => some c
    | none =>
      match metaSection with
      | some m => if m = "" then none else some m
      | none => none

/-- Function `extractTimestamp`: time-selector cascade, then the date meta tags. -/
def extractTimestampP1B (cands : List (Option String)) (metaDate : Option String) :
    Option String :=
  match tsCascade cands with
  | some iso => some iso
  | none =>
    match metaDate with
    | some m => if m = "" then none else jsDateToIso m
    | none => none

/-- Selector-query results read by the part_001 second-variant
`scrapeArticle` from one fetched page. -/
structure PageP1B where
  htmlLength : Nat := 1000
  bodyText : String := ""
  titleCands : List (Option String) := []
  titleTag : String := ""
  subtitleCands : List (Option String) := []
  contentCands : List (Option String) := []
  imgSel : List (List ImgTag) := []
  timeCands : List (Option String) := []
  metaDate : Option String := none
  locCands : List String := []
  breadcrumbs : List String := []
  metaSection : Option String := none
deriving DecidableEq

structure ArticleP1B where
  url : String := ""
  title : Option String := none
  subtitle : Option String := none
  content : Option String := none
  images : Option (List String) := none
  timestamp : Option String := none
  location : Option String := none
  category : Option String := none
deriving DecidableEq

/-- Post-fetch extraction of the part_001 second-variant `scrapeArticle`:
empty-response check, blocking-marker check, `extractCleanText` for title /
subtitle / content, throwing only when title and content are both entirely
empty. -/
def extractP1B (url : String) (p : PageP1B) : Except JsErr ArticleP1B :=
  if p.htmlLength < 100 then
    .error { response := none, message := "Received empty or invalid response" }
  else if containsSubstr (lowerStr p.bodyText) "access denied" ||
          containsSubstr (lowerStr p.bodyText) "blocked" ||
          containsSubstr (lowerStr p.bodyText) "captcha" then
    .error { response := none, message := "Access blocked by website" }
  else
    let t0 := extractCleanTextM p.titleCands
    let title := if t0 = "" then jsTrim p.titleTag else t0
    let subtitle := extractCleanTextM p.subtitleCands
    let content := extractCleanTextM p.contentCands
    if title = "" ∧ content = "" then
      .error { response := none,
               message := "No meaningful content found - possible blocking or invalid page" }
    else
      let images := p1ExtractImages p.imgSel url
      .ok { url := url,
            title := if title = "" then none else some title,
            subtitle := if subtitle = "" then none else some subtitle,
            content := if content = "" then none else some content,
            images := if images.isEmpty then none else some images,
            timestamp := extractTimestampP1B p.timeCands p.metaDate,
            location := extractLocationM p.locCands content,
            category := extractCategoryM p.breadcrumbs url p.metaSection }

/-- Whether the part_001 retry loop breaks instead of retrying: HTTP 404 or
a malformed URL. -/
def p1bNoRetry (e : JsErr) : Bool :=
  (match e.response with
   | some r => r.status == 404
   | none => false) || containsSubstr e.message "Invalid URL"

/-- part_001 second-variant `scrapeArticle` with its retry loop: 3 attempts,
a `1000 * attempt` ms pause before attempts 2 and 3, break on 404 or
malformed URL, final throw wrapping the last error. -/
def scrapeArticleP1BRun (url : String) (oracle : Nat → Except JsErr PageP1B) :
    RunResult ArticleP1B :=
  runRetries 3 (fun a => if 1 < a then some (1000 * a) else none) p1bNoRetry
    (fun e => { response := none,
                message := "Scraping failed after 3 attempts: " ++ e.message })
    (fun a => (oracle a).bind (extractP1B url))

/-! ## First-variant scrapeArticle and /api/article (src/api/scrape.js lines 37, 162) -/

/-- Selector-query results read by the first-variant `scrapeArticle`. -/
structure PageV1 where
  h1Headline : String := ""
  h1Title : String := ""
  h1Story : String := ""
  ogTitle : Option String := none
  titleTag : String := ""
  containers : List (Option (List String)) := []
  allParas : List String := []
  imgs : List ImgTag := []
  dateCands : List (Option String) := []
deriving DecidableEq

structure ArticleV1 where
  title : String
  content : String
  images : List String
  published : Option String
  source : String
  url : String
  word_count : Nat
deriving DecidableEq

def v1TitleCands (p : PageV1) : List (Option String) :=
  [some (jsTrim p.h1Headline), some (jsTrim p.h1Title), some (jsTrim p.h1Story),
   some (p.ogTitle.getD ""), some (cleanTitleTag p.titleTag)]

def v1Content (p : PageV1) : String :=
  let r := contentLoop "" p.containers
  if r.1 = "" then fallbackParas ["advertisement"] p.allParas ""
  else r.1

/-- Post-fetch extraction of the first-variant `scrapeArticle`: total, with
placeholder defaults instead of failures. -/
def extractV1 (url : String) (p : PageV1) : ArticleV1 :=
  let title := (jsCascade (v1TitleCands p)).getD ""
  let content := v1Content p
  { title := if title = "" then "No title found" else title,
    content := if jsTrim content = "" then "No content available" else jsTrim content,
    images := v1Images p.imgs url,
    published := tsCascade p.dateCands,
    source := ((parseUrl url).map (fun u => u.host)).getD "",
    url := url,
    word_count := splitWsCount content }

/-- Result of the first-variant `scrapeArticle`: an article object, or the
error object `\x7b error, url \x7d` built in the catch block — never a
throw. -/
inductive ResultV1 where
  | art (a : ArticleV1)
  | errObj (error : String) (url : String)
deriving DecidableEq

def scrapeArticleV1 (url : String) (f : Except JsErr PageV1) : ResultV1 :=
  match f with
  | .ok p => .art (extractV1 url p)
  | .error e => .errObj ("Scraping failed: " ++ e.message) url

/-- JSON body of `/api/article` responses (fields absent in the payload are
`none`). -/
structure ApiArticleBody where
  success : Bool
  error : Option String := none
  title : Option String := none
  content : Option String := none
  images : Option (List String) := none
  published : Option String := none
  source : Option String := none
  url : Option String := none
  word_count : Option Nat := none
deriving DecidableEq

structure HttpResponse (β : Type) where
  status : Nat
  body : β
deriving DecidableEq

/-- The `/api/article` route of the first variant: validation, then
`res.json(\x7b success: true, ...article \x7d)` with the default 200
status — also when the article is the catch-block error object. -/
def apiArticleV1 (urlParam : Option String) (f : Except JsErr PageV1) :
    HttpResponse ApiArticleBody :=
  match urlParam with
  | none => { status := 400,
              body := { success := false, error := some "Valid URL parameter is required" } }
  | some url =>
    if !isValidUrl url then
      { status := 400,
        body := { success := false, error := some "Valid URL parameter is required" } }
    else
      match scrapeArticleV1 url f with
      | .art a =>
        { status := 200,
          body := { success := true, title := some a.title, content := some a.content,
                    images := some a.images, published := a.published,
                    source := some a.source, url := some a.url,
                    word_count := some a.word_count } }
      | .errObj e u =>
        { status := 200,
          body := { success := true, error := some e, url := some u } }

/-! ## Feed reader and batch orchestration (src/api/scrape.js lines 374-565,
891-1039) -/

/-- Cleanup `description.replace(/<[^>]*>/g, '')`. -/
def stripTagsGo : Bool → List Char → List Char
  | _, [] => []
  | false, '<' :: rest => stripTagsGo true rest
  | false, c :: rest => c :: stripTagsGo false rest
  | true, '>' :: rest => stripTagsGo false rest
  | true, _ :: rest => stripTagsGo true rest

def stripTags (s : String) : String := String.mk (stripTagsGo false s.data)

/-- A result block of the rendered Google News search page, as read by
`getActualArticleUrls`: heading text, `/articles/` anchor, source label. -/
structure RawSearchItem where
  title : String := ""
  relativeLink : Option String := none
  source : String := ""

/-- Candidate produced by `getActualArticleUrls`. -/
structure AltItem where
  title : String
  googleUrl : String
  source : String
deriving DecidableEq

/-- An `<item>` of the Google News RSS feed. -/
structure RssItemV2 where
  title : String := ""
  link : String := ""
  description : String := ""
  pubDate : String := ""
  source : String := ""

/-- Network environment of one batch request: the rendered search page, the
RSS feed, and the per-URL outcomes of `resolveGoogleNewsUrl` (total, since
that resolver never throws) and `scrapeOriginalArticle`. -/
structure GNewsEnv where
  searchOk : Bool := true
  searchRaw : List RawSearchItem := []
  rssItems : List RssItemV2 := []
  resolver : String → String
  scraper : String → Except JsErr ArticleV2
  now : String := "1970-01-01T00:00:00.000Z"

/-- Function `getActualArticleUrls(query, 5)`: collect up to 5 search-page results
having a truthy title and `/articles/` link; a failed fetch yields `[]`. -/
def getActualArticleUrlsM (env : GNewsEnv) : List AltItem :=
  if env.searchOk then
    env.searchRaw.foldl (fun acc a =>
      if acc.length ≥ 5 then acc
      else
        let title := jsTrim a.title
        if title != "" && truthyStr a.relativeLink then
          acc ++ [{ title := title,
                    googleUrl := "https://news.google.com" ++ a.relativeLink.getD "",
                    source := if jsTrim a.source = "" then "Unknown" else jsTrim a.source }]
        else acc) []
  else []

/-- One article object of the batch output.  Note `title` is nullable: the
alternative branch spreads the extractor result *after* the feed title. -/
structure NewsArticleOut where
  title : Option String := none
  original_link : Option String := none
  resolved_url : Option String := none
  source : Option String := none
  source_url : Option String := none
  description : Option String := none
  published : Option String := none
  content : Option String := none
  images : Option (List String) := none
  timestamp : Option String := none
  word_count : Option Nat := none
  error : Option String := none
deriving DecidableEq

/-- Per-candidate processing of the alternative branch of
`getGoogleNewsRSS` (line 430): resolve, scrape, and build
`\x7b title, …, ...contentData, published \x7d` — the spread overwrites
`title` with the extracted one. -/
def processAltItem (env : GNewsEnv) (a : AltItem) : NewsArticleOut :=
  let resolvedUrl := env.resolver a.googleUrl
  if resolvedUrl != "" && !containsSubstr resolvedUrl "news.google.com" then
    match env.scraper resolvedUrl with
    | .ok c =>
      { title := c.title,
        original_link := some a.googleUrl,
        resolved_url := some resolvedUrl,
        source := some a.source,
        source_url := some c.source_url,
        content := c.content,
        images := c.images,
        timestamp := c.timestamp,
        word_count := some c.word_count,
        published := some env.now }
    | .error e =>
      { title := some a.title, original_link := some a.googleUrl,
        source := some a.source,
        error := some ("Processing failed: " ++ e.message) }
  else
    { title := some a.title, original_link := some a.googleUrl,
      source := some a.source,
      error := some "Could not resolve to original article URL" }

/-- Per-item processing of the RSS branch of `getGoogleNewsRSS` (line 507):
items lacking title or link are dropped; content fetching fills the fields
individually (the feed title is kept). -/
def processRssItem (env : GNewsEnv) (includeContent : Bool) (it : RssItemV2) :
    Option NewsArticleOut :=
  let title := jsTrim it.title
  let link := jsTrim it.link
  if title != "" && link != "" then
    let description := jsTrim it.description
    let base : NewsArticleOut :=
      { title := some title, original_link := some link,
        description := if description = "" then none
                       else some (jsTrim (stripTags description)),
        published := if jsTrim it.pubDate = "" then none else some (jsTrim it.pubDate),
        source := if jsTrim it.source = "" then none else some (jsTrim it.source) }
    if includeContent then
      let actualUrl := env.resolver link
      if actualUrl != "" && actualUrl != link && !containsSubstr actualUrl "news.google.com" then
        match env.scraper actualUrl with
        | .ok c =>
          some { base with
                   resolved_url := some actualUrl, content := c.content,
                   images := c.images, timestamp := c.timestamp,
                   word_count := some c.word_count }
        | .error e =>
          some { base with
                   resolved_url := some actualUrl,
                   error := some ("Content fetch failed: " ++ e.message) }
      else
        some { base with error := some "Could not resolve Google News URL to original source" }
    else some base
  else none

/-- Function `getGoogleNewsRSS` of src/api/scrape.js: the alternative search-page
branch (first 5 candidates) when it yields anything, else the RSS feed
(first 5 items).  The `limit` request parameter plays no role here. -/
def getGoogleNewsRSSv2M (env : GNewsEnv) (includeContent : Bool) : List NewsArticleOut :=
  let alt := if includeContent then getActualArticleUrlsM env else []
  if includeContent && !alt.isEmpty then
    (alt.take 5).map (processAltItem env)
  else
    (env.rssItems.take 5).filterMap (processRssItem env includeContent)

/-- Route `/api/news` (line 1009): `articles.slice(0, parseInt(limit))` of the
batch result (`limit` already parsed to a number). -/
def apiNewsV2M (env : GNewsEnv) (includeContent : Bool) (limit : Nat) :
    List NewsArticleOut :=
  (getGoogleNewsRSSv2M env includeContent).take limit

/-- Function `getDirectNewsArticles`: the BBC entry has no `type: 'rss'` and is
skipped entirely; Reuters RSS items are sliced to the limit and filtered by
title keyword match. -/
def getDirectNewsArticlesM (reuters : List RssItemV2)
    (query : String) (limit : Nat) : List NewsArticleOut :=
  (reuters.take limit).filterMap (fun it =>
    let title := jsTrim it.title
    let link := jsTrim it.link
    if title != "" && link != "" &&
       containsSubstr (lowerStr title) (lowerStr query) then
      some { title := some title, original_link := some link,
             resolved_url := some link, source := some "Reuters",
             description := if jsTrim it.description = "" then none
                            else some (jsTrim it.description) }
    else none)

/-- Content fetch for one direct-fallback article in the `/api/scrape`
route: `Object.assign(article, contentData)` (which again overwrites
`title`), or an error field. -/
def fetchDirectContent (env : GNewsEnv) (includeContent : Bool)
    (a : NewsArticleOut) : NewsArticleOut :=
  if includeContent then
    match env.scraper (a.resolved_url.getD "") with
    | .ok c =>
      { a with
          title := c.title, content := c.content, images := c.images,
          timestamp := c.timestamp, word_count := some c.word_count,
          source_url := some c.source_url }
    | .error e => { a with error := some ("Content fetch failed: " ++ e.message) }
  else a

/-- The `type=rss` branch of `/api/scrape` (line 905): the batch result is
returned *without* slicing to `limit`; only the empty-result direct
fallback respects the limit. -/
def apiScrapeRssM (env : GNewsEnv) (reuters : List RssItemV2) (query : String)
    (includeContent useFallback : Bool) (limit : Nat) : List NewsArticleOut :=
  let result := getGoogleNewsRSSv2M env includeContent
  if useFallback && result.isEmpty then
    (getDirectNewsArticlesM reuters query limit).map (fetchDirectContent env includeContent)
  else result

/-- Concrete batch environment: five usable search-page results, every
resolution and extraction succeeding. -/
def gnewsEnv5 : GNewsEnv :=
  { searchRaw :=
      [{ title := "Feed title one", relativeLink := some "/articles/a1" },
       { title := "Feed title two", relativeLink := some "/articles/a2" },
       { title := "Feed title three", relativeLink := some "/articles/a3" },
       { title := "Feed title four", relativeLink := some "/articles/a4" },
       { title := "Feed title five", relativeLink := some "/articles/a5" }],
    resolver := fun _ => "https://pub.example.com/story-one",
    scraper := fun _ =>
      .ok { title := some "An extracted headline",
            content := some "Body text",
            source_url := "https://pub.example.com/story-one",
            word_count := 2 } }

/-- Concrete batch environment: one candidate whose extraction succeeds with
a long body but no title. -/
def gnewsEnvTitleNull : GNewsEnv :=
  { searchRaw := [{ title := "Feed Title Here", relativeLink := some "/articles/a1" }],
    resolver := fun _ => "https://pub.example.com/story-two",
    scraper := fun _ =>
      .ok { title := none,
            content := some "A long enough body of text that passed the length threshold.",
            source_url := "https://pub.example.com/story-two",
            word_count := 11 } }

/-- Whether an embedded JavaScript computation returned normally (no
uncaught throw). -/
def isOkE {ε α : Type} : Except ε α → Bool
  | .ok _ => true
  | .error _ => false

/-! ## Helper lemmas -/

theorem exists_ok_of_isOkE {ε α : Type} (e : Except ε α) (h : isOkE e = true) :
    ∃ s, e = .ok s := by
  cases e with
  | ok v => exact ⟨v, rfl⟩
  | error err => simp [isOkE] at h

theorem foldl_preserve {α β : Type} (P : α → Prop) (f : α → β → α)
    (h : ∀ a b, P a → P (f a b)) :
    ∀ (l : List β) (a : α), P a → P (l.foldl f a) := by
  intro l
  induction l with
  | nil => intro a ha; exact ha
  | cons x xs ih => intro a ha; exact ih (f a x) (h a x ha)

theorem isPrefixOf_append_self (p r : List Char) : p.isPrefixOf (p ++ r) = true := by
  induction p with
  | nil => simp
  | cons a as ih => simp [List.cons_append, List.isPrefixOf_cons₂, ih]

theorem splitAtFirstChar_not_mem {c : Char} {l : List Char} (h : c ∉ l) :
    splitAtFirstChar c l = (l, none) := by
  induction l with
  | nil => rfl
  | cons x xs ih =>
    have hxc : ¬ x = c := fun he => h (he ▸ List.mem_cons_self x xs)
    have hx : c ∉ xs := fun hm => h (List.mem_cons_of_mem x hm)
    simp [splitAtFirstChar, hxc, ih hx]

theorem splitAtFirstChar_append {c : Char} {l₁ l₂ : List Char} (h : c ∉ l₁) :
    splitAtFirstChar c (l₁ ++ c :: l₂) = (l₁, some l₂) := by
  induction l₁ with
  | nil => simp [splitAtFirstChar]
  | cons x xs ih =>
    have hxc : ¬ x = c := fun he => h (he ▸ List.mem_cons_self x xs)
    have hx : c ∉ xs := fun hm => h (List.mem_cons_of_mem x hm)
    simp [splitAtFirstChar, hxc, ih hx]

theorem splitAtFirstMem_append {delims : List Char} {l₁ l₂ : List Char} {d : Char}
    (h : ∀ x ∈ l₁, delims.contains x = false) (hd : delims.contains d = true) :
    splitAtFirstMem delims (l₁ ++ d :: l₂) = (l₁, d :: l₂) := by
  induction l₁ with
  | nil => simp only [List.nil_append, splitAtFirstMem, hd, if_pos]
  | cons x xs ih =>
    have hx := h x (List.mem_cons_self x xs)
    have hxs : ∀ y ∈ xs, delims.contains y = false :=
      fun y hy => h y (List.mem_cons_of_mem x hy)
    simp only [List.cons_append, splitAtFirstMem, hx, Bool.false_eq_true, if_neg,
      not_false_eq_true, List.append_eq, ih hxs]

theorem splitOnCharL_not_mem {c : Char} {l : List Char} (h : c ∉ l) :
    splitOnCharL c l = [l] := by
  induction l with
  | nil => rfl
  | cons x xs ih =>
    have hxc : ¬ x = c := fun he => h (he ▸ List.mem_cons_self x xs)
    have hx : c ∉ xs := fun hm => h (List.mem_cons_of_mem x hm)
    simp [splitOnCharL, hxc, ih hx]

theorem decodeStrictL_no_percent {l : List Char} (h : '%' ∉ l) :
    decodeStrictL l = some l := by
  induction l with
  | nil => simp [decodeStrictL]
  | cons x xs ih =>
    have hxc : ¬ x = '%' := fun he => h (he ▸ List.mem_cons_self x xs)
    have hx : '%' ∉ xs := fun hm => h (List.mem_cons_of_mem x hm)
    rw [decodeStrictL.eq_def]
    simp [hxc, ih hx]

theorem retryGo_spec {α : Type} (delayFor : Nat → Option Nat) (noRetry : JsErr → Bool)
    (step : Nat → Except JsErr α) :
    ∀ (fuel a attempts : Nat) (delays : List Nat) (lastErr : Option JsErr),
    ∃ k, k ≤ fuel ∧
      (retryGo delayFor noRetry step fuel a attempts delays lastErr).attempts = attempts + k ∧
      (retryGo delayFor noRetry step fuel a attempts delays lastErr).delays =
        delays ++ (List.range' a k).filterMap delayFor := by
  intro fuel
  induction fuel with
  | zero =>
    intro a attempts delays lastErr
    exact ⟨0, Nat.le_refl 0, by simp [retryGo], by simp [retryGo]⟩
  | succ n ih =>
    intro a attempts delays lastErr
    have hone : List.filterMap delayFor [a] = (delayFor a).toList := by
      cases h : delayFor a <;> simp [List.filterMap_cons, h]
    cases hs : step a with
    | ok v =>
      refine ⟨1, by omega, ?_, ?_⟩ <;> simp [retryGo, hs, hone]
    | error e =>
      cases hn : noRetry e with
      | true =>
        refine ⟨1, by omega, ?_, ?_⟩ <;> simp [retryGo, hs, hn, hone]
      | false =>
        obtain ⟨k, hk, hatt, hdel⟩ :=
          ih (a + 1) (attempts + 1) (delays ++ (delayFor a).toList) (some e)
        refine ⟨k + 1, by omega, ?_, ?_⟩
        · simp only [retryGo, hs, hn, Bool.false_eq_true, if_neg, not_false_eq_true]
          omega
        · simp only [retryGo, hs, hn, Bool.false_eq_true, if_neg, not_false_eq_true]
          rw [hdel, List.range'_succ, List.filterMap_cons]
          cases h : delayFor a <;> simp [h, List.append_assoc]

/-- Claim C4: for both fetch wrappers the attempt count is bounded by the
configured maximum (3 for the part_001 scrapeArticle, 2 for the scrape.js
scrapeOriginalArticle), and the delays inserted before retries form the
strictly increasing sequence `1000 * attempt` for the former and at most one
fixed 2000 ms delay for the latter. -/
theorem retry_bounds_and_backoff (url1 url2 : String)
    (oracle1 : Nat → Except JsErr PageP1B) (oracle2 : Nat → Except JsErr PageV2) :
    (scrapeArticleP1BRun url1 oracle1).attempts ≤ 3 ∧
    (scrapeArticleP1BRun url1 oracle1).delays =
      (List.range' 2 ((scrapeArticleP1BRun url1 oracle1).attempts - 1)).map
        (fun n => 1000 * n) ∧
    List.Chain' (· < ·) (scrapeArticleP1BRun url1 oracle1).delays ∧
    (scrapeOriginalArticleV2Run url2 oracle2).attempts ≤ 2 ∧
    (scrapeOriginalArticleV2Run url2 oracle2).delays.length ≤ 1 ∧
    List.Chain' (· < ·) (scrapeOriginalArticleV2Run url2 oracle2).delays := by
  obtain ⟨k1, hk1, ha1, hd1⟩ := retryGo_spec
    (fun a => if 1 < a then some (1000 * a) else none) p1bNoRetry
    (fun a => (oracle1 a).bind (extractP1B url1)) 3 1 0 [] none
  obtain ⟨k2, hk2, ha2, hd2⟩ := retryGo_spec
    (fun a => if 1 < a then some 2000 else none) (fun _ => false)
    (fun a => (oracle2 a).bind (extractV2 url2)) 2 1 0 [] none
  have e1a : (scrapeArticleP1BRun url1 oracle1).attempts = k1 := by
    simpa [scrapeArticleP1BRun, runRetries] using ha1
  have e1d : (scrapeArticleP1BRun url1 oracle1).delays =
      (List.range' 1 k1).filterMap (fun a => if 1 < a then some (1000 * a) else none) := by
    simpa [scrapeArticleP1BRun, runRetries] using hd1
  have e2a : (scrapeOriginalArticleV2Run url2 oracle2).attempts = k2 := by
    simpa [scrapeOriginalArticleV2Run, runRetries] using ha2
  have e2d : (scrapeOriginalArticleV2Run url2 oracle2).delays =
      (List.range' 1 k2).filterMap (fun a => if 1 < a then some 2000 else none) := by
    simpa [scrapeOriginalArticleV2Run, runRetries] using hd2
  refine ⟨by omega, ?_, ?_, by omega, ?_, ?_⟩
  · rw [e1d, e1a]
    interval_cases k1 <;> rfl
  · rw [e1d]
    interval_cases k1
    · exact List.chain'_nil
    · exact List.chain'_nil
    · exact List.chain'_singleton 2000
    · exact List.chain'_pair.mpr (by norm_num)
  · rw [e2d]
    interval_cases k2 <;> decide
  · rw [e2d]
    interval_cases k2
    · exact List.chain'_nil
    · exact List.chain'_nil
    · exact List.chain'_singleton 2000

/-- Claim C3 (counterexample): against a URL answering HTTP 404 on every
attempt, the scrape.js `scrapeOriginalArticle` makes two fetch attempts, not
exactly one as the claim demands. -/
theorem http404_two_attempts_cex :
    (scrapeOriginalArticleV2Run "https://pub.example.com/a"
      (fun _ => .error { response := some { status := 404, location := none },
                         message := "Request failed with status code 404" })).attempts
      = 2 := by
  rfl

/-- Claim C3 (amended): the part_001 second-variant `scrapeArticle` makes
exactly one attempt on an HTTP 404 response and on a malformed-URL error,
while the scrape.js `scrapeOriginalArticle` has no non-retriable
classification and makes its full 2 attempts on HTTP 404. -/
theorem nonretriable_attempts (url : String) (loc : Option String) (msg : String)
    (e2 : JsErr) (h2 : containsSubstr e2.message "Invalid URL" = true) :
    (scrapeArticleP1BRun url
        (fun _ => .error { response := some { status := 404, location := loc },
                           message := msg })).attempts = 1 ∧
    (scrapeArticleP1BRun url (fun _ => .error e2)).attempts = 1 ∧
    (scrapeOriginalArticleV2Run url
        (fun _ => .error { response := some { status := 404, location := loc },
                           message := msg })).attempts = 2 := by
  refine ⟨?_, ?_, ?_⟩
  · simp [scrapeArticleP1BRun, runRetries, retryGo, p1bNoRetry, Except.bind]
  · simp [scrapeArticleP1BRun, runRetries, retryGo, p1bNoRetry, h2, Except.bind]
  · simp [scrapeOriginalArticleV2Run, runRetries, retryGo, Except.bind]

/-- Witness for `nonretriable_attempts` at a malformed-URL error. -/
theorem nonretriable_attempts_witness :
    (scrapeArticleP1BRun "https://pub.example.com/a"
        (fun _ => .error { response := some { status := 404, location := none },
                           message := "Request failed with status code 404" })).attempts = 1 ∧
    (scrapeArticleP1BRun "https://pub.example.com/a"
        (fun _ => .error { response := none, message := "Invalid URL" })).attempts = 1 ∧
    (scrapeOriginalArticleV2Run "https://pub.example.com/a"
        (fun _ => .error { response := some { status := 404, location := none },
                           message := "Request failed with status code 404" })).attempts = 2 :=
  nonretriable_attempts "https://pub.example.com/a" none
    "Request failed with status code 404"
    { response := none, message := "Invalid URL" } (by decide)

theorem v2ImgStep_pres (u : String) (acc : List String) (t : ImgTag2)
    (h : acc.length ≤ 10 ∧ acc.Nodup) :
    (v2ImgStep u acc t).length ≤ 10 ∧ (v2ImgStep u acc t).Nodup := by
  unfold v2ImgStep
  repeat' split
  any_goals exact h
  rename_i full hcond
  simp only [Bool.and_eq_true, Bool.not_eq_true', decide_eq_true_eq] at hcond
  refine ⟨?_, ?_⟩
  · simp only [List.length_append, List.length_singleton]
    omega
  · refine List.nodup_append.mpr
      ⟨h.2, List.nodup_singleton _, List.disjoint_singleton.mpr ?_⟩
    simpa using hcond.1

theorem v1ImgStep_pres (u : String) (acc : List String) (t : ImgTag)
    (h : acc.length ≤ 5) : (v1ImgStep u acc t).length ≤ 5 := by
  unfold v1ImgStep
  repeat' split
  any_goals exact h
  simp_all only [Bool.and_eq_true, decide_eq_true_eq, List.length_append,
    List.length_singleton]
  omega

theorem p1ImgStep_pres (u : String) (acc : List String) (t : ImgTag)
    (h : acc.Nodup) : (p1ImgStep u acc t).Nodup := by
  unfold p1ImgStep
  repeat' split
  any_goals exact h
  rename_i hcond
  refine List.nodup_append.mpr
    ⟨h, List.nodup_singleton _, List.disjoint_singleton.mpr ?_⟩
  simpa using hcond

/-- Claim C2 (amended): the scrape.js `scrapeOriginalArticle` image list is
capped at 10 and duplicate-free; the first-variant `scrapeArticle` caps its
list at 5 but performs no duplicate check; part_001 `extractImages`
deduplicates but has no cap. -/
theorem images_cap_and_nodup (sel2 : List (List ImgTag2)) (u2 : String)
    (imgs1 : List ImgTag) (u1 : String) (selP : List (List ImgTag)) (uP : String) :
    (v2Images sel2 u2).length ≤ 10 ∧ (v2Images sel2 u2).Nodup ∧
    (v1Images imgs1 u1).length ≤ 5 ∧ (p1ExtractImages selP uP).Nodup := by
  refine ⟨?_, ?_, ?_, ?_⟩
  · exact (foldl_preserve (fun acc => acc.length ≤ 10 ∧ acc.Nodup)
      (fun acc imgs => imgs.foldl (v2ImgStep u2) acc)
      (fun acc imgs ha => foldl_preserve _ (v2ImgStep u2) (v2ImgStep_pres u2) imgs acc ha)
      sel2 [] ⟨by simp, List.nodup_nil⟩).1
  · exact (foldl_preserve (fun acc => acc.length ≤ 10 ∧ acc.Nodup)
      (fun acc imgs => imgs.foldl (v2ImgStep u2) acc)
      (fun acc imgs ha => foldl_preserve _ (v2ImgStep u2) (v2ImgStep_pres u2) imgs acc ha)
      sel2 [] ⟨by simp, List.nodup_nil⟩).2
  · exact foldl_preserve (fun acc => acc.length ≤ 5) (v1ImgStep u1)
      (v1ImgStep_pres u1) imgs1 [] (by simp)
  · exact foldl_preserve (fun acc => acc.Nodup)
      (fun acc imgs => imgs.foldl (p1ImgStep uP) acc)
      (fun acc imgs ha => foldl_preserve _ (p1ImgStep uP) (p1ImgStep_pres uP) imgs acc ha)
      selP [] List.nodup_nil

/-- Claim C2 (counterexample): the first-variant `scrapeArticle` pushes the
same image URL twice (no duplicate check), and part_001 `extractImages`
returns 11 images (no cap). -/
theorem images_dedup_cap_cex :
    ¬ (v1Images
        [{ src := some "https://img.example.com/photo-123456.jpg" },
         { src := some "https://img.example.com/photo-123456.jpg" }]
        "https://pub.example.com/x").Nodup ∧
    (p1ExtractImages
        [[{ src := some "https://cdn.example.com/img01-largepicture.jpg" },
          { src := some "https://cdn.example.com/img02-largepicture.jpg" },
          { src := some "https://cdn.example.com/img03-largepicture.jpg" },
          { src := some "https://cdn.example.com/img04-largepicture.jpg" },
          { src := some "https://cdn.example.com/img05-largepicture.jpg" },
          { src := some "https://cdn.example.com/img06-largepicture.jpg" },
          { src := some "https://cdn.example.com/img07-largepicture.jpg" },
          { src := some "https://cdn.example.com/img08-largepicture.jpg" },
          { src := some "https://cdn.example.com/img09-largepicture.jpg" },
          { src := some "https://cdn.example.com/img10-largepicture.jpg" },
          { src := some "https://cdn.example.com/img11-largepicture.jpg" }]]
        "https://cdn.example.com/page").length = 11 := by
  exact ⟨by decide, by rfl⟩

/-- Claim C9: when the fetch fails, the first-variant `scrapeArticle`
returns the error object instead of throwing, and `/api/article` answers
HTTP 200 with `success: true` spread over that error object — an error
field, no content. -/
theorem api_article_error_as_success (url : String) (f : Except JsErr PageV1)
    (e : JsErr) (hv : isValidUrl url = true) (hf : f = .error e) :
    scrapeArticleV1 url f = .errObj ("Scraping failed: " ++ e.message) url ∧
    (apiArticleV1 (some url) f).status = 200 ∧
    (apiArticleV1 (some url) f).body.success = true ∧
    (apiArticleV1 (some url) f).body.error = some ("Scraping failed: " ++ e.message) ∧
    (apiArticleV1 (some url) f).body.content = none ∧
    (apiArticleV1 (some url) f).body.title = none ∧
    (apiArticleV1 (some url) f).body.url = some url := by
  subst hf
  refine ⟨rfl, ?_, ?_, ?_, ?_, ?_, ?_⟩ <;>
    simp [apiArticleV1, hv, scrapeArticleV1]

/-- Witness for `api_article_error_as_success` at a concrete timeout. -/
theorem api_article_error_as_success_witness :
    scrapeArticleV1 "https://www.bbc.com/news/x"
        (.error { response := none, message := "timeout of 15000ms exceeded" }) =
      .errObj "Scraping failed: timeout of 15000ms exceeded" "https://www.bbc.com/news/x" ∧
    (apiArticleV1 (some "https://www.bbc.com/news/x")
        (.error { response := none, message := "timeout of 15000ms exceeded" })).status = 200 ∧
    (apiArticleV1 (some "https://www.bbc.com/news/x")
        (.error { response := none, message := "timeout of 15000ms exceeded" })).body.success = true ∧
    (apiArticleV1 (some "https://www.bbc.com/news/x")
        (.error { response := none, message := "timeout of 15000ms exceeded" })).body.error =
      some "Scraping failed: timeout of 15000ms exceeded" ∧
    (apiArticleV1 (some "https://www.bbc.com/news/x")
        (.error { response := none, message := "timeout of 15000ms exceeded" })).body.content = none ∧
    (apiArticleV1 (some "https://www.bbc.com/news/x")
        (.error { response := none, message := "timeout of 15000ms exceeded" })).body.title = none ∧
    (apiArticleV1 (some "https://www.bbc.com/news/x")
        (.error { response := none, message := "timeout of 15000ms exceeded" })).body.url =
      some "https://www.bbc.com/news/x" :=
  api_article_error_as_success "https://www.bbc.com/news/x" _
    { response := none, message := "timeout of 15000ms exceeded" } (by decide) rfl

theorem resolveV2Scripts_ok (g : String) (d : ResolverDoc) :
    isOkE (resolveV2Scripts g d) = true := by
  unfold resolveV2Scripts
  split <;> rfl

theorem resolveV2Body_ok (g : String) (b : Option ResolverDoc) :
    isOkE (resolveV2Body g b) = true := by
  unfold resolveV2Body
  repeat' split
  any_goals rfl
  all_goals exact resolveV2Scripts_ok _ _

/-- Claim C6 (amended): the scrape.js `resolveGoogleNewsUrl` never throws —
every fetch outcome yields a returned string — and a fetch failure carrying
no response resolves to the original URL (unresolved as a normal value).
(The part_000 variant does not share this property, see the
counterexample.) -/
theorem resolver_v2_never_throws (googleUrl : String) (f : FetchRes) (msg : String)
    (hdec : decodeGoogleNewsUrl googleUrl = googleUrl) :
    (∃ s, resolveGoogleNewsUrlV2 googleUrl f = .ok s) ∧
    resolveGoogleNewsUrlV2 googleUrl (.fail none msg) = .ok googleUrl := by
  constructor
  · refine exists_ok_of_isOkE _ ?_
    unfold resolveGoogleNewsUrlV2
    repeat' split
    all_goals dsimp only
    repeat' split
    any_goals rfl
    all_goals exact resolveV2Body_ok _ _
  · simp [resolveGoogleNewsUrlV2, hdec]

/-- Witness for `resolver_v2_never_throws` at a Google News article URL and
a timing-out fetch. -/
theorem resolver_v2_never_throws_witness :
    (∃ s, resolveGoogleNewsUrlV2 "https://news.google.com/articles/CBMiabc"
        (.ok 200 none none) = .ok s) ∧
    resolveGoogleNewsUrlV2 "https://news.google.com/articles/CBMiabc"
        (.fail none "timeout of 10000ms exceeded") =
      .ok "https://news.google.com/articles/CBMiabc" :=
  resolver_v2_never_throws "https://news.google.com/articles/CBMiabc"
    (.ok 200 none none) "timeout of 10000ms exceeded" (by rfl)

/-- Claim C6 (counterexample): the part_000 resolver *does* throw: when the
fetch fails with an error response whose Location header is a malformed URL,
the `new URL` call inside its catch block raises a TypeError that propagates
to the caller. -/
theorem resolver_p0_throws_cex :
    resolveGoogleNewsUrlP0 "https://news.google.com/articles/abc"
      (.fail (some { status := 502, location := some "https://exa mple.com/a" })
        "Request failed with status code 502") =
    .error { response := none, message := "Invalid URL" } := by
  rfl

theorem keepPara_none (n : Nat) (banned : List String) (t : String)
    (h : (jsTrim t).length ≤ n) : keepPara n banned t = none := by
  have hn : ¬ (jsTrim t).length > n := by omega
  simp [keepPara, hn]

theorem foldPara_none (n : Nat) (banned : List String) (l : List String) (acc : String)
    (h : ∀ t ∈ l, (jsTrim t).length ≤ n) :
    l.foldl (fun acc t =>
      match keepPara n banned t with
      | some txt => acc ++ txt ++ "\n\n"
      | none => acc) acc = acc := by
  induction l generalizing acc with
  | nil => rfl
  | cons x xs ih =>
    rw [List.foldl_cons, keepPara_none n banned x (h x (List.mem_cons_self x xs))]
    exact ih acc (fun t ht => h t (List.mem_cons_of_mem x ht))

theorem contentLoop_empty (cs : List (Option (List String)))
    (h : ∀ o ∈ cs, ∀ l, o = some l → ∀ t ∈ l, (jsTrim t).length ≤ 30) :
    contentLoop "" cs = ("", false) := by
  induction cs with
  | nil => rfl
  | cons c rest ih =>
    have hrest : ∀ o ∈ rest, ∀ l, o = some l → ∀ t ∈ l, (jsTrim t).length ≤ 30 :=
      fun o ho => h o (List.mem_cons_of_mem c ho)
    cases c with
    | none => simpa [contentLoop] using ih hrest
    | some paras =>
      have hp : ∀ t ∈ paras, (jsTrim t).length ≤ 30 :=
        h (some paras) (List.mem_cons_self _ _) paras rfl
      by_cases he : paras.isEmpty
      · simpa [contentLoop, he] using ih hrest
      · rw [contentLoop]
        simp only [he, if_neg, Bool.false_eq_true, not_false_eq_true]
        rw [foldPara_none 30 ["advertisement"] paras "" hp]
        simpa using ih hrest

theorem v2Content_empty (p : PageV2)
    (hc : ∀ o ∈ p.containers, ∀ l, o = some l → ∀ t ∈ l, (jsTrim t).length ≤ 30)
    (ha : ∀ t ∈ p.allParas, (jsTrim t).length ≤ 50) :
    v2Content p = "" := by
  unfold v2Content
  rw [contentLoop_empty p.containers hc]
  simpa [fallbackParas] using
    foldPara_none 50 ["advertisement", "subscribe"] p.allParas "" ha

theorem v2Title_empty (p : PageV2)
    (h1 : (jsTrim p.h1Headline).length ≤ 10) (h2 : (jsTrim p.h1Title).length ≤ 10)
    (h3 : (jsTrim p.h1Story).length ≤ 10)
    (hog : ∀ t, p.ogTitle = some t → t.length ≤ 10)
    (h4 : (jsTrim p.h1).length ≤ 10)
    (h5 : cleanTitleTag p.titleTag = "") :
    jsCascade (v2TitleCands p) = some "" := by
  have n1 : ¬ (jsTrim p.h1Headline).length > 10 := by omega
  have n2 : ¬ (jsTrim p.h1Title).length > 10 := by omega
  have n3 : ¬ (jsTrim p.h1Story).length > 10 := by omega
  have n4 : ¬ (jsTrim p.h1).length > 10 := by omega
  cases hogc : p.ogTitle with
  | none => simp [jsCascade, v2TitleCands, jsCascadeGo, hogc, n1, n2, n3, n4, h5]
  | some t =>
    have nt : ¬ t.length > 10 := by have := hog t hogc; omega
    simp [jsCascade, v2TitleCands, jsCascadeGo, hogc, n1, n2, n3, n4, nt, h5]

/-- Claim C8 (amended): the scrape.js `scrapeOriginalArticle` reports
insufficient content — it throws its dedicated error through both retry
attempts rather than returning near-empty data — whenever the page yields
no title at all (no title candidate exceeds the 10-character break
threshold *and* the cleaned `title`-tag text, which the selector loop
leaves as the final value of the title variable, is empty) and every
paragraph is at most 30 characters (in particular when all paragraphs are
under 20 characters).  A short but non-empty `title` tag counts as a
title: the guard is `title falsy ∧ content.length < 100`, so such a page
returns near-empty data instead.  (The part_001 second-variant
`scrapeArticle` lacks even this guarantee, see the counterexample.) -/
theorem insufficient_content_reported (url : String) (p : PageV2)
    (h1 : (jsTrim p.h1Headline).length ≤ 10) (h2 : (jsTrim p.h1Title).length ≤ 10)
    (h3 : (jsTrim p.h1Story).length ≤ 10)
    (hog : ∀ t, p.ogTitle = some t → t.length ≤ 10)
    (h4 : (jsTrim p.h1).length ≤ 10)
    (h5 : cleanTitleTag p.titleTag = "")
    (hc : ∀ o ∈ p.containers, ∀ l, o = some l → ∀ t ∈ l, (jsTrim t).length ≤ 30)
    (ha : ∀ t ∈ p.allParas, (jsTrim t).length ≤ 50) :
    (scrapeOriginalArticleV2Run url (fun _ => .ok p)).result =
      .error { response := none,
               message := "Insufficient content extracted - possible blocking or paywall" } := by
  have hx : extractV2 url p =
      .error { response := none,
               message := "Insufficient content extracted - possible blocking or paywall" } := by
    unfold extractV2
    rw [v2Title_empty p h1 h2 h3 hog h4 h5, v2Content_empty p hc ha]
    simp [truthyStr]
  simp [scrapeOriginalArticleV2Run, runRetries, retryGo, Except.bind, hx]

/-- Witness for `insufficient_content_reported`: a page with no title and
two sub-20-character paragraphs. -/
theorem insufficient_content_reported_witness :
    (scrapeOriginalArticleV2Run "https://pub.example.com/a"
        (fun _ => .ok { containers := [some ["tiny one", "short"], none],
                        allParas := ["tiny one"] })).result =
      .error { response := none,
               message := "Insufficient content extracted - possible blocking or paywall" } :=
  insufficient_content_reported "https://pub.example.com/a"
    { containers := [some ["tiny one", "short"], none], allParas := ["tiny one"] }
    (by decide) (by decide) (by decide) (fun t ht => by cases ht)
    (by decide) (by decide)
    (by
      intro o ho l hl t htl
      simp only [List.mem_cons, List.not_mem_nil, or_false] at ho
      rcases ho with h | h
      · rw [h] at hl
        cases hl
        simp only [List.mem_cons, List.not_mem_nil, or_false] at htl
        rcases htl with h2 | h2 <;> subst h2 <;> decide
      · rw [h] at hl
        cases hl)
    (by
      intro t ht
      simp only [List.mem_cons, List.not_mem_nil, or_false] at ht
      subst ht
      decide)

/-- Claim C8 (counterexample): the part_001 second-variant `scrapeArticle`
joins matched text without any per-paragraph threshold and only fails when
title *and* content are completely empty — a page whose only paragraph is
the 8-character text "tiny one" yields a success object carrying that
near-empty content and a null title instead of an insufficiency report. -/
theorem tiny_paragraphs_ok_cex :
    (scrapeArticleP1BRun "https://pub.example.com/a"
        (fun _ => .ok { htmlLength := 500, contentCands := [some "tiny one"] })).result =
      .ok { url := "https://pub.example.com/a", content := some "tiny one" } := by
  rfl

theorem processRssItem_title (env : GNewsEnv) (ic : Bool) (it : RssItemV2)
    (a : NewsArticleOut) (h : processRssItem env ic it = some a) :
    truthyStr a.title = true := by
  unfold processRssItem at h
  dsimp only at h
  repeat' split at h
  any_goals cases h
  all_goals simp_all [truthyStr]

/-- Claim C1 (amended): `/api/news` returns at most `limit` articles; the
batch reader itself is capped at 5; the `type=rss` branch of `/api/scrape`
does not apply `limit` to the Google News list (only its empty-result direct
fallback is limит-capped, hence the `max 5 limit` bound); and every article
built from an RSS feed item carries the non-empty feed title.  (Alternative
branch articles can instead carry the extractor title, which may be null —
see the counterexample.) -/
theorem batch_limits_and_titles (env : GNewsEnv) (reuters : List RssItemV2)
    (query : String) (ic : Bool) (limit : Nat) :
    (apiNewsV2M env ic limit).length ≤ limit ∧
    (getGoogleNewsRSSv2M env ic).length ≤ 5 ∧
    (apiScrapeRssM env reuters query ic true limit).length ≤ max 5 limit ∧
    ((env.rssItems.take 5).filterMap (processRssItem env ic)).all
      (fun a => truthyStr a.title) = true := by
  have hlen : (getGoogleNewsRSSv2M env ic).length ≤ 5 := by
    unfold getGoogleNewsRSSv2M
    dsimp only
    repeat' split
    all_goals first
      | (rw [List.length_map]; exact List.length_take_le _ _)
      | exact le_trans (List.length_filterMap_le _ _) (List.length_take_le _ _)
  refine ⟨?_, hlen, ?_, ?_⟩
  · exact List.length_take_le _ _
  · unfold apiScrapeRssM
    dsimp only
    split
    · rw [List.length_map]
      exact le_trans (le_trans (List.length_filterMap_le _ _) (List.length_take_le _ _))
        (le_max_right 5 limit)
    · exact le_trans hlen (le_max_left 5 limit)
  · rw [List.all_eq_true]
    intro a ha
    obtain ⟨it, _, hsome⟩ := List.mem_filterMap.mp ha
    exact processRssItem_title env ic it a hsome

/-- Claim C1 (counterexample): with five usable candidates, the `type=rss`
branch of `/api/scrape` called with `limit=3` returns 5 articles; and a
resolved, extracted candidate whose page had no usable title ends up with a
null title in the batch output (the feed title is overwritten by the object
spread). -/
theorem apiScrape_ignores_limit_and_title_cex :
    (apiScrapeRssM gnewsEnv5 [] "technology" true true 3).length = 5 ∧
    ¬ (apiScrapeRssM gnewsEnv5 [] "technology" true true 3).length ≤ 3 ∧
    (getGoogleNewsRSSv2M gnewsEnvTitleNull true).map (fun a => a.title) = [none] := by
  have h5 : (apiScrapeRssM gnewsEnv5 [] "technology" true true 3).length = 5 := by rfl
  refine ⟨h5, ?_, by rfl⟩
  omega

theorem string_mk_data (s : String) : String.mk s.data = s := by
  cases s
  rfl

theorem parseUrlL_split (host path q : List Char)
    (hh : validHostL host = true)
    (hhd : ∀ c ∈ host, hostDelims.contains c = false)
    (hp1 : '?' ∉ path) (hp2 : '#' ∉ path) (hq : '#' ∉ q) :
    parseUrlL ("https://".data ++ (host ++ '/' :: (path ++ '?' :: q))) =
      some { scheme := "https:", host := String.mk host,
             pathname := String.mk ('/' :: path), query := String.mk q } := by
  have hpre : "https://".data.isPrefixOf
      ("https://".data ++ (host ++ '/' :: (path ++ '?' :: q))) = true :=
    isPrefixOf_append_self _ _
  have hdrop : ("https://".data ++ (host ++ '/' :: (path ++ '?' :: q))).drop 8 =
      host ++ '/' :: (path ++ '?' :: q) := by
    rw [show (8 : Nat) = "https://".data.length from rfl]
    exact List.drop_left _ _
  have hsplit : splitAtFirstMem hostDelims (host ++ '/' :: (path ++ '?' :: q)) =
      (host, '/' :: (path ++ '?' :: q)) :=
    splitAtFirstMem_append hhd (by decide)
  have hnohash : '#' ∉ ('/' :: (path ++ '?' :: q)) := by
    intro hmem
    rcases List.mem_cons.mp hmem with h | h
    · exact absurd h (by decide)
    rcases List.mem_append.mp h with h | h
    · exact hp2 h
    rcases List.mem_cons.mp h with h | h
    · exact absurd h (by decide)
    · exact hq h
  have hquest : splitAtFirstChar '?' ('/' :: (path ++ '?' :: q)) =
      ('/' :: path, some q) := by
    have : '?' ∉ ('/' :: path) := by
      intro hmem
      rcases List.mem_cons.mp hmem with h | h
      · exact absurd h (by decide)
      · exact hp1 h
    simpa using @splitAtFirstChar_append '?' ('/' :: path) q this
  unfold parseUrlL
  simp only [hpre, if_true, hdrop, hsplit, hh, splitAtFirstChar_not_mem hnohash,
    hquest, List.isEmpty_cons, Bool.false_eq_true, if_neg, not_false_eq_true,
    Option.getD_some]

theorem searchGet_url (v : List Char) (hAmp : '&' ∉ v) :
    searchGet (String.mk ("url=".data ++ v)) "url" =
      some (String.mk (decodeLenientL v)) := by
  have hnoamp : '&' ∉ ("url=".data ++ v) := by
    intro hmem
    rcases List.mem_append.mp hmem with h | h
    · exact absurd h (by decide)
    · exact hAmp h
  have heq : splitAtFirstChar '=' ("url=".data ++ v) = ("url".data, some v) := by
    have : ("url=".data ++ v) = ("url".data ++ '=' :: v) := by rfl
    rw [this]
    exact splitAtFirstChar_append (by decide)
  unfold searchGet searchPairs
  rw [show (String.mk ("url=".data ++ v)).data = "url=".data ++ v from rfl,
    splitOnCharL_not_mem hnoamp]
  simp only [List.map_cons, List.map_nil, heq]
  rw [show String.mk (decodeLenientL "url".data) = "url" from rfl]
  simp [List.find?]

/-- Core of extractActualUrl on a Google redirect URL: a lenient decode by
`searchParams.get`, then `decodeURIComponent` on top of it. -/
theorem extractActualUrl_googleParam (path : List Char) (v t1 t2 : String)
    (hp1 : '?' ∉ path) (hp2 : '#' ∉ path)
    (hart : containsSubstr (String.mk ('/' :: path)) "/articles/" = false)
    (hHash : '#' ∉ v.data) (hAmp : '&' ∉ v.data)
    (hdec1 : searchDecodeValue v = t1) (ht1 : ¬ t1 = "")
    (hdec2 : decodeURIComponentJs t1 = some t2)
    (s : String)
    (hs : s.data = "https://".data ++
      ("www.google.com".data ++ '/' :: (path ++ '?' :: ("url=".data ++ v.data)))) :
    extractActualUrl s = t2 := by
  have hq : '#' ∉ ("url=".data ++ v.data) := by
    intro hmem
    rcases List.mem_append.mp hmem with h | h
    · exact absurd h (by decide)
    · exact hHash h
  have hparse : parseUrl s =
      some { scheme := "https:", host := String.mk "www.google.com".data,
             pathname := String.mk ('/' :: path),
             query := String.mk ("url=".data ++ v.data) } := by
    unfold parseUrl
    rw [hs]
    exact parseUrlL_split "www.google.com".data path ("url=".data ++ v.data)
      (by decide) (by decide) hp1 hp2 hq
  have hget : searchGet (String.mk ("url=".data ++ v.data)) "url" = some t1 := by
    rw [searchGet_url v.data hAmp]
    exact congrArg some hdec1
  unfold extractActualUrl
  rw [hparse]
  simp only [hart, Bool.false_eq_true, if_neg, not_false_eq_true, hget, jsOrStr,
    ht1, if_neg, hdec2]

/-- Claim C7 (amended): a URL without `/articles/` in its path and without a
`url` or `q` query parameter passes through resolution unchanged — the only
step applied, `extractActualUrl`, is pure (no fetch is involved) and is the
identity here.  (A canonical URL *with* a `url`/`q` parameter is rewritten,
see the counterexample.) -/
theorem extractActualUrl_idempotent (s : String) (u : UrlParts)
    (hparse : parseUrl s = some u)
    (hpath : containsSubstr u.pathname "/articles/" = false)
    (hurl : searchGet u.query "url" = none)
    (hq : searchGet u.query "q" = none)
    (hga : containsSubstr s "news.google.com/articles/" = false) :
    extractActualUrl s = s ∧ scrapeGoogleNewsResolveP1A s = .ok s := by
  have hid : extractActualUrl s = s := by
    unfold extractActualUrl
    rw [hparse]
    simp [hpath, hurl, hq, jsOrStr]
  refine ⟨hid, ?_⟩
  unfold scrapeGoogleNewsResolveP1A
  rw [hid]
  simp [hga]

/-- Witness for `extractActualUrl_idempotent` at a canonical BBC URL. -/
theorem extractActualUrl_idempotent_witness :
    extractActualUrl "https://www.bbc.com/news/technology-12345678" =
      "https://www.bbc.com/news/technology-12345678" ∧
    scrapeGoogleNewsResolveP1A "https://www.bbc.com/news/technology-12345678" =
      .ok "https://www.bbc.com/news/technology-12345678" :=
  extractActualUrl_idempotent "https://www.bbc.com/news/technology-12345678"
    { scheme := "https:", host := "www.bbc.com",
      pathname := "/news/technology-12345678", query := "" }
    (by rfl) (by rfl) (by rfl) (by rfl) (by rfl)

/-- Claim C7 (counterexample): resolution is not idempotent on every
non-aggregator URL — a canonical URL carrying a `q` query parameter is
rewritten to that parameter's decoded value. -/
theorem canonical_q_param_rewritten_cex :
    extractActualUrl "https://www.example.com/search?q=hello" = "hello" ∧
    ¬ extractActualUrl "https://www.example.com/search?q=hello" =
        "https://www.example.com/search?q=hello" := by
  exact ⟨by rfl, by decide⟩

/-- Claim C5: a redirect link encoding its target in the `url=` query
parameter resolves to the decoded target by the pure `extractActualUrl`
alone — the part_001 `scrapeGoogleNews` resolution stage involves no fetch
for such links. -/
theorem redirect_param_resolution (v t : String)
    (hHash : '#' ∉ v.data) (hAmp : '&' ∉ v.data)
    (hdec : searchDecodeValue v = t) (ht : ¬ t = "") (hpct : '%' ∉ t.data)
    (hng : containsSubstr t "news.google.com/articles/" = false) :
    extractActualUrl ("https://www.google.com/redirect?url=" ++ v) = t ∧
    scrapeGoogleNewsResolveP1A ("https://www.google.com/redirect?url=" ++ v) = .ok t := by
  have hstrict : decodeURIComponentJs t = some t := by
    unfold decodeURIComponentJs
    rw [decodeStrictL_no_percent hpct]
    simp [string_mk_data]
  have hid : extractActualUrl ("https://www.google.com/redirect?url=" ++ v) = t := by
    refine extractActualUrl_googleParam "redirect".data v t t
      (by decide) (by decide) (by rfl) hHash hAmp hdec ht hstrict _ ?_
    rw [String.data_append]
    simp only [← List.append_assoc, ← List.cons_append]
    exact congrArg (fun l => l ++ v.data) (by decide)
  refine ⟨hid, ?_⟩
  unfold scrapeGoogleNewsResolveP1A
  rw [hid]
  simp [hng]

/-- Witness for `redirect_param_resolution` at the specification's example
link. -/
theorem redirect_param_resolution_witness :
    extractActualUrl
        ("https://www.google.com/redirect?url=" ++ "https%3A%2F%2Fexample.com%2Fa") =
      "https://example.com/a" ∧
    scrapeGoogleNewsResolveP1A
        ("https://www.google.com/redirect?url=" ++ "https%3A%2F%2Fexample.com%2Fa") =
      .ok "https://example.com/a" :=
  redirect_param_resolution "https%3A%2F%2Fexample.com%2Fa" "https://example.com/a"
    (by decide) (by decide) (by rfl) (by decide) (by decide) (by rfl)

/-- Claim C10: `extractActualUrl` decodes twice — `searchParams.get`
performs one lenient decode and `decodeURIComponent` is applied on top, so
a parameter value still carrying percent escapes after one decode comes
back doubly decoded. -/
theorem double_decode (v t1 t2 : String)
    (hHash : '#' ∉ v.data) (hAmp : '&' ∉ v.data)
    (hdec1 : searchDecodeValue v = t1) (ht1 : ¬ t1 = "")
    (hdec2 : decodeURIComponentJs t1 = some t2) :
    extractActualUrl ("https://www.google.com/url?url=" ++ v) = t2 := by
  refine extractActualUrl_googleParam "url".data v t1 t2
    (by decide) (by decide) (by rfl) hHash hAmp hdec1 ht1 hdec2 _ ?_
  rw [String.data_append]
  simp only [← List.append_assoc, ← List.cons_append]
  exact congrArg (fun l => l ++ v.data) (by decide)

/-- Witness for `double_decode`: a doubly encoded target comes back fully
decoded (not singly decoded). -/
theorem double_decode_witness :
    extractActualUrl
        ("https://www.google.com/url?url=" ++ "https%253A%252F%252Fexample.com%252Fa") =
      "https://example.com/a" ∧
    searchDecodeValue "https%253A%252F%252Fexample.com%252Fa" =
      "https%3A%2F%2Fexample.com%2Fa" ∧
    ¬ ("https://example.com/a" = "https%3A%2F%2Fexample.com%2Fa") :=
  ⟨double_decode "https%253A%252F%252Fexample.com%252Fa"
      "https%3A%2F%2Fexample.com%2Fa" "https://example.com/a"
      (by decide) (by decide) (by rfl) (by decide) (by rfl),
   by rfl, by decide⟩

end GNews
